import Mathlib

/-!
Shallow embedding of the GNSS constellation ephemeris/clock manager of
`gnss_satellites.cpp` (class `GnssSatellites` and the factory
`InitGnssSatellites`).

Modelling conventions:
* `double` values (epoch seconds, positions, clock offsets) are modelled as `ℚ`;
  the claims under scrutiny are about control flow, indexing and sentinel
  values, not floating-point rounding.
* `EpochTime` (external time collaborator) is modelled by its observable
  interface: an integer second count (`GetTime_s`) plus a fractional part
  (`GetTimeWithFraction_s` returns their sum).  Calendar conversions
  (UTC/DateTime) are external collaborators and are absorbed into the
  `EpochTime` values handed to the manager.
* `Sp3FileReader` (external file-source collaborator, not part of the sources
  under review) is modelled from the spec by its interface: satellite count,
  epoch list, per-epoch position/clock accessors, start time, and
  nearest-epoch lookup.
* `std::vector::operator[]` with an out-of-range index is undefined behaviour;
  the embedding makes every such access explicit with `List.get?` and returns
  an `oob` result when the C++ code would read past the end of
  `sp3_files_`, `orbit_`, `clock_` or a buffer's time list.
-/

/-- Epoch time as observed by the manager: integer seconds since the epoch
plus a fractional second part (models the external `EpochTime` collaborator:
`GetTime_s()` is `time_s`, `GetTimeWithFraction_s()` is `time_s + fraction_s`). -/
structure EpochTime where
  time_s : Nat
  fraction_s : ℚ
deriving DecidableEq

/-- Value of `EpochTime::GetTimeWithFraction_s()`. -/
def EpochTime.toSec (t : EpochTime) : ℚ := (t.time_s : ℚ) + t.fraction_s

instance : Inhabited EpochTime := ⟨⟨0, 0⟩⟩

/-- Three-component vector (`libra::Vector<3>`), componentwise over `ℚ`. -/
abbrev Vec3 := ℚ × ℚ × ℚ

/-- The zero vector `libra::Vector<3>(0.0)`. -/
def v3zero : Vec3 := (0, 0, 0)

/-- Scalar multiplication on `Vec3` (the `1000.0 *` km-to-m rescaling). -/
def v3smul (a : ℚ) (v : Vec3) : Vec3 := (a * v.1, a * v.2.1, a * v.2.2)

/-- Modelled from the spec: the Ephemeris File Source collaborator
(`Sp3FileReader`, whose parsing code is outside the reviewed sources) is a
bounded product exposing a satellite count, per-epoch samples, its start time
and a nearest-epoch lookup. -/
structure Sp3FileReader where
  satellite_count : Nat
  epochs : List EpochTime
  position_km : Nat → Nat → Vec3
  clock_us : Nat → Nat → ℚ
  start_time : EpochTime
  nearest_epoch_id : EpochTime → Nat

instance : Inhabited Sp3FileReader :=
  ⟨⟨0, [], fun _ _ => v3zero, fun _ _ => 0, ⟨0, 0⟩, fun _ => 0⟩⟩

/-- Modelled from the spec: a per-satellite interpolation buffer
(`InterpolationOrbit` / `libra::Interpolation`, outside the reviewed sources)
holds parallel lists of time offsets and values. -/
structure Buffer (α : Type) where
  times : List ℚ
  vals : List α
deriving DecidableEq

/-- Modelled from the spec: `PushAndPopData` appends one sample and, at the
fixed capacity `kNumberOfInterpolation = 9`, evicts the oldest one. -/
def Buffer.push (b : Buffer α) (t : ℚ) (v : α) : Buffer α :=
  if 9 ≤ b.times.length then ⟨b.times.tail ++ [t], b.vals.tail ++ [v]⟩
  else ⟨b.times ++ [t], b.vals ++ [v]⟩

/-- Initial contents of an orbit buffer, `InterpolationOrbit(9)`: the library
constructor pre-fills the window with the `-1.0` time placeholder and zero
positions (modelled from the spec's placeholder description). -/
def orbitInitBuffer : Buffer Vec3 :=
  ⟨List.replicate 9 (-1), List.replicate 9 v3zero⟩

/-- Initial contents of a clock buffer: `Initialize` constructs it from
`temp.assign(kNumberOfInterpolation, -1.0)` for both times and values. -/
def clockInitBuffer : Buffer ℚ :=
  ⟨List.replicate 9 (-1), List.replicate 9 (-1)⟩

/-- The member state of a `GnssSatellites` object. -/
structure GnssState where
  sp3_files : List Sp3FileReader
  current_epoch_time : EpochTime
  number_of_calculated : Nat
  reference_interpolation_id : Nat
  reference_time : EpochTime
  sp3_file_id : Nat
  orbit : List (Buffer Vec3)
  clock : List (Buffer ℚ)
  is_calc_enabled : Bool

/-- Freshly constructed manager (member initialisers of the header): counters
zero, empty buffer vectors, calculation enabled. -/
def initialState : GnssState :=
  { sp3_files := []
    current_epoch_time := ⟨0, 0⟩
    number_of_calculated := 0
    reference_interpolation_id := 0
    reference_time := ⟨0, 0⟩
    sp3_file_id := 0
    orbit := []
    clock := []
    is_calc_enabled := true }

instance : Inhabited GnssState := ⟨initialState⟩

/-- Result of `GnssSatellites::Initialize`: normal return, the logged
time-range-mismatch early return (lines 26-29), or an out-of-bounds vector
access (undefined behaviour in the C++). -/
inductive InitResult
  | ok (s : GnssState)
  | mismatch (s : GnssState)
  | oob

/-- Result of `GnssSatellites::Update`: normal return or an out-of-bounds
vector access (undefined behaviour in the C++). -/
inductive UpdResult
  | ok (s : GnssState)
  | oob

/-- State carried by an `InitResult` (junk `initialState` for `oob`). -/
def InitResult.state : InitResult → GnssState
  | .ok s => s
  | .mismatch s => s
  | .oob => initialState

/-- State carried by an `UpdResult` (junk `initialState` for `oob`). -/
def UpdResult.state : UpdResult → GnssState
  | .ok s => s
  | .oob => initialState

/-- Loop body of `GnssSatellites::GetCurrentSp3File` (lines 149-160): walk the
file list; abort with `none` when the query time precedes a file's start,
select the file when the query time is within 24 h = 86400 s of its start. -/
def findSp3Index : List Sp3FileReader → ℚ → Option Nat
  | [], _ => none
  | f :: rest, t =>
    if t - f.start_time.toSec < 0 then none
    else if t - f.start_time.toSec < 86400 then some 0
    else (findSp3Index rest t).map (· + 1)

/-- One iteration of the inner refill loops of `Initialize` (lines 50-57) and
`Update` (lines 90-97): push the sample of `file` at epoch `rid` into satellite
`n`'s orbit and clock buffers.  `none` models an out-of-bounds
`orbit_[idx]` / `clock_[idx]` access. -/
def refillStep (file : Sp3FileReader) (rid : Nat) (refT : ℚ) (n : Nat)
    (p : List (Buffer Vec3) × List (Buffer ℚ)) :
    Option (List (Buffer Vec3) × List (Buffer ℚ)) :=
  (p.1.get? n).bind fun b =>
    (p.2.get? n).bind fun bc =>
      let tdiff := (file.epochs.getD rid ⟨0, 0⟩).toSec - refT
      some (p.1.set n (b.push tdiff (v3smul 1000 (file.position_km rid n))),
            p.2.set n (bc.push tdiff (file.clock_us rid n)))

/-- Iterating `refillStep` over satellite indices `0, …, n-1`. -/
def refillMany (file : Sp3FileReader) (rid : Nat) (refT : ℚ)
    (ob : List (Buffer Vec3)) (cb : List (Buffer ℚ)) :
    Nat → Option (List (Buffer Vec3) × List (Buffer ℚ))
  | 0 => some (ob, cb)
  | n + 1 => (refillMany file rid refT ob cb n).bind (refillStep file rid refT n)

/-- The seeding loop of `Initialize` (lines 49-68): `n` remaining iterations of
the outer `for` over `kNumberOfInterpolation`.  After each pass the epoch index
is advanced; when it reaches the file's epoch count it is reset to 0 and the
file index advances — and, exactly as in the C++ (line 66 runs after the
line 63 exhaustion log), the next file is fetched unconditionally, which is an
out-of-bounds access once the list is exhausted. -/
def seedLoop : Nat → Sp3FileReader → GnssState → InitResult
  | 0, _, s => .ok s
  | n + 1, file, s =>
    match refillMany file s.reference_interpolation_id s.reference_time.toSec
        s.orbit s.clock s.number_of_calculated with
    | none => .oob
    | some (ob, cb) =>
      let s' := { s with orbit := ob, clock := cb }
      if s'.reference_interpolation_id + 1 ≥ file.epochs.length then
        match s'.sp3_files.get? (s'.sp3_file_id + 1) with
        | none => .oob
        | some f =>
          seedLoop n f
            { s' with reference_interpolation_id := 0,
                      sp3_file_id := s'.sp3_file_id + 1 }
      else
        seedLoop n file
          { s' with reference_interpolation_id := s'.reference_interpolation_id + 1 }

/-- State of the manager right after `GetCurrentSp3File` succeeded with index
`idx` and the general info of `Initialize` (lines 32-46) has been recorded:
satellite count, reference interpolation id (clamped `nearest - 4`, keeping the
previous member value when `nearest < 4`), reference time, and the freshly
assigned orbit/clock buffer vectors. -/
def postSelect (files : List Sp3FileReader) (start : EpochTime) (s₀ : GnssState)
    (idx : Nat) : GnssState :=
  let file := files.getD idx default
  let count := file.satellite_count
  let nearest := file.nearest_epoch_id start
  let rid := if nearest ≥ 4 then nearest - 4 else s₀.reference_interpolation_id
  { s₀ with
    sp3_files := files
    current_epoch_time := start
    sp3_file_id := idx
    number_of_calculated := count
    reference_interpolation_id := rid
    reference_time := file.epochs.getD rid ⟨0, 0⟩
    orbit := List.replicate count orbitInitBuffer
    clock := List.replicate count clockInitBuffer }

/-- `GnssSatellites::Initialize` (lines 20-71).  Line 25 copies
`sp3_files_[0]` before anything else, so an empty file list is an immediate
out-of-bounds access.  A failed `GetCurrentSp3File` returns early with the
mismatch log, leaving the buffers untouched. -/
def initializeGnss (files : List Sp3FileReader) (start : EpochTime)
    (s₀ : GnssState) : InitResult :=
  let s := { s₀ with sp3_files := files, current_epoch_time := start }
  match files.get? 0 with
  | none => .oob
  | some _ =>
    match findSp3Index files start.toSec with
    | none => .mismatch s
    | some idx => seedLoop 9 (files.getD idx default) (postSelect files start s idx)

/-- The triggered branch of `GnssSatellites::Update` (lines 90-107): refill the
buffers of satellite indices `0, …, 31` (the loop bound is the literal `32`),
advance the epoch index, and on rollover advance the file index — fetching
`sp3_files_[sp3_file_id_]` unconditionally after the exhaustion log, an
out-of-bounds access once the list is exhausted. -/
def updateTriggered (s : GnssState) (file : Sp3FileReader) : UpdResult :=
  match refillMany file s.reference_interpolation_id s.reference_time.toSec
      s.orbit s.clock 32 with
  | none => .oob
  | some (ob, cb) =>
    let s' := { s with orbit := ob, clock := cb }
    if s'.reference_interpolation_id + 1 ≥ file.epochs.length then
      if s'.sp3_file_id + 1 ≥ s'.sp3_files.length then .oob
      else
        .ok { s' with reference_interpolation_id := 0,
                      sp3_file_id := s'.sp3_file_id + 1 }
    else
      .ok { s' with reference_interpolation_id := s'.reference_interpolation_id + 1 }

/-- `GnssSatellites::Update` (lines 73-111).  `t` is the epoch time obtained
from the simulation clock (the UTC/DateTime conversion is an external
collaborator).  When calculation is disabled the function returns before even
storing the current time.  The refill trigger compares the elapsed time since
`reference_time_` against `orbit_[0].GetTimeList()[4]`. -/
def update (s : GnssState) (t : EpochTime) : UpdResult :=
  if s.is_calc_enabled then
    let s1 := { s with current_epoch_time := t }
    match s1.sp3_files.get? s1.sp3_file_id with
    | none => .oob
    | some file =>
      match s1.orbit.get? 0 with
      | none => .oob
      | some b0 =>
        match b0.times.get? 4 with
        | none => .oob
        | some m =>
          if s1.current_epoch_time.toSec - s1.reference_time.toSec > m then
            updateTriggered s1 file
          else .ok s1
  else .ok s

/-- Type of the trigonometric orbit evaluator
(`InterpolationOrbit::CalcPositionWithTrigonometric`).  The spec pins down only
that it is a trigonometric-basis fit at a fixed angular rate; the library code
is outside the reviewed sources, so the evaluator (with the constant rate
argument absorbed) is kept abstract and the theorems quantify over it. -/
abbrev TrigEval := List ℚ → List Vec3 → ℚ → Vec3

/-- A concrete trivial instance of `TrigEval`, used to instantiate witnesses. -/
def trigZero : TrigEval := fun _ _ _ => v3zero

/-- Lagrange basis polynomial `i` of the node list `times`, evaluated at `x`. -/
def lagrangeBasis (times : List ℚ) (i : Nat) (x : ℚ) : ℚ :=
  (List.range times.length).foldl
    (fun acc j =>
      if j = i then acc
      else acc * ((x - times.getD j 0) / (times.getD i 0 - times.getD j 0))) 1

/-- Modelled from the spec: `libra::Interpolation::CalcPolynomial` (outside the
reviewed sources) returns "a plain polynomial evaluation fitted to the buffered
(time, clock) samples"; the fitted polynomial is the interpolating polynomial
through the samples, evaluated here in Lagrange form. -/
def calcPolynomial (times vals : List ℚ) (x : ℚ) : ℚ :=
  (List.range times.length).foldl
    (fun acc i => acc + vals.getD i 0 * lagrangeBasis times i x) 0

/-- `GnssSatellites::GetPosition_ecef_m` (lines 113-129).  `none` models the
out-of-bounds `orbit_[gnss_satellite_id]` access the C++ performs when the
index passes the `>` guard but is not a valid buffer index. -/
def getPosition_ecef_m (trig : TrigEval) (s : GnssState) (id : Nat)
    (time : EpochTime) : Option Vec3 :=
  if id > s.number_of_calculated then some v3zero
  else
    let target := if time.time_s = 0 then s.current_epoch_time else time
    let diff := target.toSec - s.reference_time.toSec
    if diff < 0 ∨ diff > 1000000 then some v3zero
    else
      match s.orbit.get? id with
      | none => none
      | some b => some (trig b.times b.vals diff)

/-- `GnssSatellites::GetClock_s` (lines 131-146).  The stored clock values are
in microseconds; the result is rescaled by `1e-6`.  `none` models the
out-of-bounds `clock_[gnss_satellite_id]` access. -/
def getClock_s (s : GnssState) (id : Nat) (time : EpochTime) : Option ℚ :=
  if id > s.number_of_calculated then some 0
  else
    let target := if time.time_s = 0 then s.current_epoch_time else time
    let diff := target.toSec - s.reference_time.toSec
    if diff < 0 ∨ diff > 1000000 then some 0
    else
      match s.clock.get? id with
      | none => none
      | some b => some (calcPolynomial b.times b.vals diff * (1 / 1000000))

/-- The while loop of `InitGnssSatellites` (lines 218-236) collecting the
year-day-of-year dates of the product files to read; `inc` is the external
`IncrementYearDoy` and `fuel` bounds the unbounded C++ while loop. -/
def collectDates (inc : Nat → Nat) : Nat → Nat → Nat → List Nat
  | 0, _, _ => []
  | fuel + 1, d, e => if d ≤ e then d :: collectDates inc fuel (inc d) e else []

/-- The calculation-enabled path of the factory `InitGnssSatellites`
(lines 187-245): check the configured date range (a `start_date` after
`end_date` only prints the error, line 211-213), read one file source per date
(`readFile` abstracts the SP3 parsing), then construct and `Initialize` the
manager.  The returned flag records whether the configuration error was
logged. -/
def initGnssSatellites (readFile : Nat → Sp3FileReader) (inc : Nat → Nat)
    (fuel : Nat) (start_date end_date : Nat) (start_epoch : EpochTime) :
    Bool × InitResult :=
  let configError := decide (start_date > end_date)
  let sp3s := (collectDates inc fuel start_date end_date).map readFile
  (configError, initializeGnss sp3s start_epoch initialState)

/-- A file's 24-hour coverage window contains the instant `t` (the containment
test `0 ≤ t - start < 86400` applied by `GetCurrentSp3File`). -/
def coversTime (f : Sp3FileReader) (t : EpochTime) : Prop :=
  0 ≤ t.toSec - f.start_time.toSec ∧ t.toSec - f.start_time.toSec < 86400

instance (f : Sp3FileReader) (t : EpochTime) : Decidable (coversTime f t) := by
  unfold coversTime; infer_instance

/-- Demonstration file source with a single satellite: 14 hourly-second epochs
starting at second 100, constant 7 µs clock offsets. -/
def demoFile1 : Sp3FileReader :=
  { satellite_count := 1
    epochs := (List.range 14).map (fun k => ⟨100 + k, 0⟩)
    position_km := fun _ _ => v3zero
    clock_us := fun _ _ => 7
    start_time := ⟨100, 0⟩
    nearest_epoch_id := fun _ => 0 }

/-- Demonstration file source reporting 32 satellites and 10 epochs starting at
second 100. -/
def demoFileA : Sp3FileReader :=
  { satellite_count := 32
    epochs := (List.range 10).map (fun k => ⟨100 + k, 0⟩)
    position_km := fun _ _ => v3zero
    clock_us := fun _ _ => 0
    start_time := ⟨100, 0⟩
    nearest_epoch_id := fun _ => 0 }

/-- Successor of `demoFileA`: 32 satellites, 10 epochs starting at second 110. -/
def demoFileB : Sp3FileReader :=
  { satellite_count := 32
    epochs := (List.range 10).map (fun k => ⟨110 + k, 0⟩)
    position_km := fun _ _ => v3zero
    clock_us := fun _ _ => 0
    start_time := ⟨110, 0⟩
    nearest_epoch_id := fun _ => 0 }

/-- Demonstration file source reporting 33 satellites and 14 epochs starting at
second 100. -/
def demoFile33 : Sp3FileReader :=
  { satellite_count := 33
    epochs := (List.range 14).map (fun k => ⟨100 + k, 0⟩)
    position_km := fun _ _ => v3zero
    clock_us := fun _ _ => 0
    start_time := ⟨100, 0⟩
    nearest_epoch_id := fun _ => 0 }

/-- Manager state after `Initialize([demoFile1], 100 s)`. -/
def demoState1 : GnssState :=
  (initializeGnss [demoFile1] ⟨100, 0⟩ initialState).state

/-- Manager state after `Initialize([demoFileA], 100 s)` (a single file). -/
def demoState4 : GnssState :=
  (initializeGnss [demoFileA] ⟨100, 0⟩ initialState).state

/-- Manager state after `Initialize([demoFileA, demoFileB], 100 s)`. -/
def demoState2 : GnssState :=
  (initializeGnss [demoFileA, demoFileB] ⟨100, 0⟩ initialState).state

/-- Result of the first triggered `Update` on `demoState2`, at second 105. -/
def demoUpd2 : UpdResult := update demoState2 ⟨105, 0⟩

/-- State after the first triggered `Update` on `demoState2`. -/
def demoUpd2State : GnssState := demoUpd2.state

/-- Manager state after `Initialize([demoFile33], 100 s)`. -/
def demoState33 : GnssState :=
  (initializeGnss [demoFile33] ⟨100, 0⟩ initialState).state

/-- Result of the first triggered `Update` on `demoState33`, at second 105. -/
def demoUpd33 : UpdResult := update demoState33 ⟨105, 0⟩

/-- State after the first triggered `Update` on `demoState33`. -/
def demoUpd33State : GnssState := demoUpd33.state

/-- Unfolding of a successful `refillStep`. -/
theorem refillStep_eq_some (file : Sp3FileReader) (rid : Nat) (refT : ℚ) (n : Nat)
    (o : List (Buffer Vec3)) (c : List (Buffer ℚ)) (o' : List (Buffer Vec3))
    (c' : List (Buffer ℚ)) (h : refillStep file rid refT n (o, c) = some (o', c')) :
    ∃ b bc, o.get? n = some b ∧ c.get? n = some bc ∧
      o' = o.set n (b.push ((file.epochs.getD rid ⟨0, 0⟩).toSec - refT)
        (v3smul 1000 (file.position_km rid n))) ∧
      c' = c.set n (bc.push ((file.epochs.getD rid ⟨0, 0⟩).toSec - refT)
        (file.clock_us rid n)) := by
  unfold refillStep at h
  rcases Option.bind_eq_some.mp h with ⟨b, hgo, h⟩
  rcases Option.bind_eq_some.mp h with ⟨bc, hgc, h⟩
  simp only [Option.some.injEq, Prod.mk.injEq] at h
  exact ⟨b, bc, hgo, hgc, h.1.symm, h.2.symm⟩

/-- A refill pass leaves every buffer at an index not covered by the loop
unchanged. -/
theorem refillMany_get?_ge (file : Sp3FileReader) (rid : Nat) (refT : ℚ) :
    ∀ n ob cb o' c', refillMany file rid refT ob cb n = some (o', c') →
      ∀ i, n ≤ i → o'.get? i = ob.get? i ∧ c'.get? i = cb.get? i := by
  intro n
  induction n with
  | zero =>
    intro ob cb o' c' h i _
    simp only [refillMany, Option.some.injEq, Prod.mk.injEq] at h
    exact ⟨h.1 ▸ rfl, h.2 ▸ rfl⟩
  | succ n ih =>
    intro ob cb o' c' h i hi
    rw [refillMany] at h
    rcases Option.bind_eq_some.mp h with ⟨⟨o, c⟩, hrec, hstep⟩
    obtain ⟨b, bc, hgo, hgc, ho, hc⟩ := refillStep_eq_some _ _ _ _ _ _ _ _ hstep
    have hne : n ≠ i := by omega
    have hprev := ih ob cb o c hrec i (by omega)
    subst ho; subst hc
    rw [List.get?_set_ne _ _ hne, List.get?_set_ne _ _ hne]
    exact hprev

/-- A refill pass pushes exactly one sample (the sample of `file` at epoch
`rid`) into each buffer at an index covered by the loop. -/
theorem refillMany_get?_lt (file : Sp3FileReader) (rid : Nat) (refT : ℚ) :
    ∀ n ob cb o' c', refillMany file rid refT ob cb n = some (o', c') →
      ∀ i, i < n → ∃ b bc,
        ob.get? i = some b ∧ cb.get? i = some bc ∧
        o'.get? i = some (b.push ((file.epochs.getD rid ⟨0, 0⟩).toSec - refT)
          (v3smul 1000 (file.position_km rid i))) ∧
        c'.get? i = some (bc.push ((file.epochs.getD rid ⟨0, 0⟩).toSec - refT)
          (file.clock_us rid i)) := by
  intro n
  induction n with
  | zero => intro ob cb o' c' _ i hi; omega
  | succ n ih =>
    intro ob cb o' c' h i hi
    rw [refillMany] at h
    rcases Option.bind_eq_some.mp h with ⟨⟨o, c⟩, hrec, hstep⟩
    obtain ⟨b, bc, hgo, hgc, ho, hc⟩ := refillStep_eq_some _ _ _ _ _ _ _ _ hstep
    subst ho; subst hc
    rcases Nat.lt_succ_iff_lt_or_eq.mp hi with hlt | heq
    · obtain ⟨b', bc', hob, hcb, hoi, hci⟩ := ih ob cb o c hrec i hlt
      have hne : n ≠ i := by omega
      exact ⟨b', bc', hob, hcb,
        by rw [List.get?_set_ne _ _ hne]; exact hoi,
        by rw [List.get?_set_ne _ _ hne]; exact hci⟩
    · subst heq
      have hprev := refillMany_get?_ge file rid refT i ob cb o c hrec i (le_refl i)
      refine ⟨b, bc, hprev.1 ▸ hgo, hprev.2 ▸ hgc, ?_, ?_⟩
      · rw [List.get?_set_eq, hgo]; rfl
      · rw [List.get?_set_eq, hgc]; rfl

/-- Any normal return of the triggered `Update` branch keeps the reference time
and the stored query time, advances the epoch index by at most one, and carries
exactly the buffers produced by the 32-index refill pass. -/
theorem updateTriggered_ok_spec (s : GnssState) (file : Sp3FileReader) (s' : GnssState)
    (h : updateTriggered s file = UpdResult.ok s') :
    s'.reference_time = s.reference_time ∧
    s'.current_epoch_time = s.current_epoch_time ∧
    s'.reference_interpolation_id ≤ s.reference_interpolation_id + 1 ∧
    ∃ ob cb,
      refillMany file s.reference_interpolation_id s.reference_time.toSec s.orbit s.clock 32 =
        some (ob, cb) ∧ s'.orbit = ob ∧ s'.clock = cb := by
  unfold updateTriggered at h
  cases heq : refillMany file s.reference_interpolation_id s.reference_time.toSec
      s.orbit s.clock 32 with
  | none => rw [heq] at h; simp at h
  | some p =>
    obtain ⟨ob, cb⟩ := p
    rw [heq] at h
    dsimp only at h
    split at h
    · split at h
      · simp at h
      · injection h with h
        subst h
        exact ⟨rfl, rfl, Nat.zero_le _, ob, cb, rfl, rfl, rfl⟩
    · injection h with h
      subst h
      exact ⟨rfl, rfl, Nat.le_refl _, ob, cb, rfl, rfl, rfl⟩

/-- Any normal return of `Update` is: the unchanged state (calculation
disabled), the state with only the stored query time refreshed (trigger not
fired), or the result of the triggered branch. -/
theorem update_ok_cases (s : GnssState) (t : EpochTime) (s' : GnssState)
    (h : update s t = UpdResult.ok s') :
    s' = s ∨ s' = { s with current_epoch_time := t } ∨
      ∃ file, s.sp3_files.get? s.sp3_file_id = some file ∧
        updateTriggered { s with current_epoch_time := t } file = UpdResult.ok s' := by
  simp only [update] at h
  split at h
  · split at h
    · simp at h
    next file hf =>
      split at h
      · simp at h
      next b0 hb =>
        split at h
        · simp at h
        next m hm =>
          split at h
          · right; right
            exact ⟨file, hf, h⟩
          · right; left
            injection h with h
            exact h.symm
  · left
    injection h with h
    exact h.symm

/-- The seeding loop never modifies the reference time. -/
theorem seedLoop_reference_time :
    ∀ n file s r, seedLoop n file s = InitResult.ok r →
      r.reference_time = s.reference_time := by
  intro n
  induction n with
  | zero =>
    intro file s r h
    simp only [seedLoop] at h
    injection h with h
    rw [← h]
  | succ n ih =>
    intro file s r h
    simp only [seedLoop] at h
    split at h
    · simp at h
    next ob cb heq =>
      split at h
      · split at h
        · simp at h
        next f hf =>
          have hh := ih _ _ _ h
          exact hh
      · have hh := ih _ _ _ h
        exact hh

/-- When the file-selection loop returns an index, that file's 24-hour window
contains the query instant and no earlier file's window does. -/
theorem findSp3Index_some (start : EpochTime) :
    ∀ (files : List Sp3FileReader) (i : Nat),
      findSp3Index files start.toSec = some i →
      ∃ f, files.get? i = some f ∧ coversTime f start ∧
        ∀ j, j < i → ∀ g, files.get? j = some g → ¬ coversTime g start := by
  intro files
  induction files with
  | nil => intro i h; simp [findSp3Index] at h
  | cons f rest ih =>
    intro i h
    rw [findSp3Index] at h
    split at h
    · simp at h
    next hneg =>
      split at h
      next hlt =>
        injection h with h
        subst h
        exact ⟨f, rfl, ⟨by linarith [not_lt.mp hneg], hlt⟩, fun j hj => by omega⟩
      next hge =>
        rcases Option.map_eq_some'.mp h with ⟨i0, hrec, hi⟩
        subst hi
        obtain ⟨g, hgi, hgcov, hfirst⟩ := ih i0 hrec
        refine ⟨g, hgi, hgcov, ?_⟩
        intro j hj g' hg'
        cases j with
        | zero =>
          simp only [List.get?] at hg'
          injection hg' with hg'
          subst hg'
          intro hc
          exact hge hc.2
        | succ j' =>
          exact hfirst j' (by omega) g' hg'

/-- When the file list is sorted by start time and the selection loop fails,
no file's 24-hour window contains the query instant. -/
theorem findSp3Index_none (start : EpochTime) :
    ∀ files : List Sp3FileReader,
      files.Pairwise (fun a b => a.start_time.toSec ≤ b.start_time.toSec) →
      findSp3Index files start.toSec = none →
      ∀ f ∈ files, ¬ coversTime f start := by
  intro files
  induction files with
  | nil => intro _ _ f hf; simp at hf
  | cons f rest ih =>
    intro hsorted h g hg
    rw [findSp3Index] at h
    rw [List.pairwise_cons] at hsorted
    obtain ⟨hf_le, hrest⟩ := hsorted
    split at h
    next hneg =>
      rcases List.mem_cons.mp hg with hgf | hgr
      · subst hgf
        intro hc
        linarith [hc.1]
      · intro hc
        have hle := hf_le g hgr
        have : start.toSec - g.start_time.toSec < 0 := by linarith
        linarith [hc.1]
    next hpos =>
      split at h
      · simp at h
      next hge =>
        rcases List.mem_cons.mp hg with hgf | hgr
        · subst hgf
          intro hc
          exact hge hc.2
        · have hrn : findSp3Index rest start.toSec = none := by
            cases hfr : findSp3Index rest start.toSec with
            | none => rfl
            | some k => rw [hfr] at h; simp at h
          exact ih hrest hrn g hgr

/-- Unfolding of `Update` under the in-range lookups of a well-formed state:
it equals the triggered branch exactly when the elapsed time since the
reference exceeds the window's middle time offset, and otherwise only the
stored query time changes. -/
theorem update_cadence_eq (s : GnssState) (t : EpochTime) (file : Sp3FileReader)
    (b0 : Buffer Vec3) (m : ℚ)
    (hen : s.is_calc_enabled = true)
    (hf : s.sp3_files.get? s.sp3_file_id = some file)
    (hb : s.orbit.get? 0 = some b0)
    (hm : b0.times.get? 4 = some m) :
    update s t =
      if t.toSec - s.reference_time.toSec > m
      then updateTriggered { s with current_epoch_time := t } file
      else UpdResult.ok { s with current_epoch_time := t } := by
  unfold update
  rw [hen]
  dsimp only
  rw [hf]
  dsimp only
  rw [hb]
  dsimp only
  rw [hm]
  dsimp only
  rfl

/-- C1: the claim says every satellite id ≥ `tracked_satellite_count` gets the
zero-vector / 0.0 sentinels for any query time.  The code's guard uses `>`
instead of `≥`, so at `id = tracked_satellite_count` (here 1, with a
1-satellite file) and an in-window query time both getters fall through the
guard and read `orbit_[id]` / `clock_[id]` one past the end of the buffer
vectors (`none` in the embedding) instead of returning the sentinels. -/
theorem gnss_untracked_guard_off_by_one (trig : TrigEval) :
    demoState1.number_of_calculated = 1 ∧
    getPosition_ecef_m trig demoState1 1 ⟨104, 0⟩ = none ∧
    getClock_s demoState1 1 ⟨104, 0⟩ = none :=
  ⟨by with_unfolding_all decide, by with_unfolding_all rfl, by with_unfolding_all decide⟩

/-- C2: the claim says a triggered refill pushes one sample into the buffers of
every tracked satellite and of no other satellite.  The refill loop of `Update`
is hard-coded to indices 0..31: with a file reporting 33 satellites the refill
succeeds but tracked satellite 32's orbit and clock buffers are left untouched
while satellite 31's buffer changes. -/
theorem gnss_update_refill_hardcoded_32 :
    demoState33.number_of_calculated = 33 ∧
    demoUpd33 = UpdResult.ok demoUpd33State ∧
    demoUpd33State.orbit.get? 32 = demoState33.orbit.get? 32 ∧
    demoUpd33State.clock.get? 32 = demoState33.clock.get? 32 ∧
    demoUpd33State.orbit.get? 31 ≠ demoState33.orbit.get? 31 :=
  ⟨by with_unfolding_all decide, by with_unfolding_all rfl, by with_unfolding_all decide, by with_unfolding_all decide, by with_unfolding_all decide⟩

/-- C4: the claim says exhausting the file list is logged and degrades
gracefully with no out-of-bounds index into the file sequence.  With a single
10-epoch file, a triggered `Update` at its last epoch index rolls the file
index to 1 and, right after printing the exhaustion log, evaluates
`sp3_files_[1]` on the 1-element file vector: an out-of-bounds access
(`UpdResult.oob`), not a graceful degradation. -/
theorem gnss_file_exhaustion_out_of_bounds :
    demoState4.sp3_files.length = 1 ∧
    demoState4.sp3_file_id = 0 ∧
    demoState4.reference_interpolation_id = 9 ∧
    demoState4.is_calc_enabled = true ∧
    update demoState4 ⟨105, 0⟩ = UpdResult.oob :=
  ⟨by with_unfolding_all decide, by with_unfolding_all decide, by with_unfolding_all decide, by with_unfolding_all decide, by with_unfolding_all rfl⟩

/-- C8: the claim says a start date after the end date is a fatal configuration
error past which no GNSS manager is initialized.  The factory only prints the
error (flag `true` below) and then proceeds: the file-reading loop collects no
files and `Initialize` is still called on the empty list, where line 25
immediately indexes `sp3_files_[0]` out of bounds (`InitResult.oob`). -/
theorem gnss_config_error_not_fatal (readFile : Nat → Sp3FileReader)
    (inc : Nat → Nat) (e : EpochTime) :
    initGnssSatellites readFile inc 10 2 1 e = (true, InitResult.oob) := by with_unfolding_all rfl

/-- C5 counterexample: a triggered `Update` on a two-file configuration rolls
the epoch index back to 0 and advances the file index from 0 to 1, yet
`reference_time` stays at 100 s — it is not re-anchored to the new file's
origin (its first epoch, 110 s), contradicting the claim that the reference is
re-anchored whenever the epoch index resets and the file index advances. -/
theorem gnss_reference_time_rollover_counterexample :
    demoUpd2 = UpdResult.ok demoUpd2State ∧
    demoState2.sp3_file_id = 0 ∧
    demoState2.reference_interpolation_id = 9 ∧
    demoUpd2State.reference_interpolation_id = 0 ∧
    demoUpd2State.sp3_file_id = 1 ∧
    demoUpd2State.reference_time = demoState2.reference_time ∧
    demoUpd2State.reference_time.toSec = 100 ∧
    ((demoUpd2State.sp3_files.getD 1 default).epochs.getD 0 ⟨0, 0⟩).toSec = 110 :=
  ⟨by with_unfolding_all rfl, by with_unfolding_all decide, by with_unfolding_all decide, by with_unfolding_all decide, by with_unfolding_all decide, by with_unfolding_all decide, by with_unfolding_all decide, by with_unfolding_all decide⟩

/-- C6 counterexample: satellite 0 is tracked and the query time 0.5 s lies
far before `reference_time` (offset −99.5 s < 0), yet `GetClock_s` does not
return the 0.0 sentinel: because the integer-second part of the query is 0 the
code silently substitutes the manager's current query time and returns the
interpolated 7 µs offset. -/
theorem gnss_out_of_window_zero_seconds_counterexample :
    0 < demoState1.number_of_calculated ∧
    (⟨0, 1 / 2⟩ : EpochTime).toSec - demoState1.reference_time.toSec < 0 ∧
    getClock_s demoState1 0 ⟨0, 1 / 2⟩ ≠ some 0 :=
  ⟨by with_unfolding_all decide, by with_unfolding_all decide, by with_unfolding_all decide⟩

/-- C3: with calculation enabled (and the file/buffer lookups of a well-formed
state in range), `Update` takes the refill branch if and only if
`current_epoch_time - reference_time` exceeds the time offset stored at index
4 = W/2 of satellite 0's 9-sample window; otherwise only the stored query time
changes. -/
theorem gnss_update_refill_cadence (s : GnssState) (t : EpochTime)
    (file : Sp3FileReader) (b0 : Buffer Vec3) (m : ℚ)
    (hen : s.is_calc_enabled = true)
    (hf : s.sp3_files.get? s.sp3_file_id = some file)
    (hb : s.orbit.get? 0 = some b0)
    (hm : b0.times.get? 4 = some m) :
    update s t =
      if t.toSec - s.reference_time.toSec > m
      then updateTriggered { s with current_epoch_time := t } file
      else UpdResult.ok { s with current_epoch_time := t } :=
  update_cadence_eq s t file b0 m hen hf hb hm

/-- Witness for C3: on the seeded single-file state, an `Update` at 104 s
(elapsed 4 s, not exceeding the middle offset 4 s) performs no push and only
stores the query time. -/
theorem gnss_update_refill_cadence_witness :
    update demoState4 ⟨104, 0⟩ =
      UpdResult.ok { demoState4 with current_epoch_time := ⟨104, 0⟩ } := by
  have h := gnss_update_refill_cadence demoState4 ⟨104, 0⟩ demoFileA
    ⟨[0, 1, 2, 3, 4, 5, 6, 7, 8], List.replicate 9 v3zero⟩ 4
    (by with_unfolding_all rfl) (by with_unfolding_all rfl)
    (by with_unfolding_all rfl) (by with_unfolding_all rfl)
  rw [h, if_neg (by with_unfolding_all decide :
    ¬ (⟨104, 0⟩ : EpochTime).toSec - demoState4.reference_time.toSec > 4)]

/-- C5 (amended): `reference_time` is anchored once, by `Initialize`, and never
re-anchored afterwards: no normal `Update` return and no seeding iteration ever
modifies it, even when the epoch index resets to 0 and the file index
advances. -/
theorem gnss_reference_time_never_reanchored :
    (∀ s t s', update s t = UpdResult.ok s' → s'.reference_time = s.reference_time) ∧
    (∀ n file s r, seedLoop n file s = InitResult.ok r →
      r.reference_time = s.reference_time) := by
  constructor
  · intro s t s' h
    rcases update_ok_cases s t s' h with rfl | rfl | ⟨file, hf, htrig⟩
    · rfl
    · rfl
    · exact (updateTriggered_ok_spec _ _ _ htrig).1
  · exact seedLoop_reference_time

/-- Witness for the amended C5: across the file-rollover `Update` of the
two-file scenario the reference time is unchanged. -/
theorem gnss_reference_time_never_reanchored_witness :
    demoUpd2State.reference_time = demoState2.reference_time :=
  gnss_reference_time_never_reanchored.1 demoState2 ⟨105, 0⟩ demoUpd2State
    (by with_unfolding_all rfl)

/-- C6 (amended): for a tracked satellite and a query time whose integer-second
part is nonzero, an offset from `reference_time` that is negative or exceeds
1e6 s makes `GetPosition_ecef_m` return the zero vector and `GetClock_s`
return 0.0. -/
theorem gnss_out_of_window_sentinel (trig : TrigEval) (s : GnssState) (id : Nat)
    (time : EpochTime)
    (hid : id < s.number_of_calculated)
    (hts : ¬ time.time_s = 0)
    (hrange : time.toSec - s.reference_time.toSec < 0 ∨
      time.toSec - s.reference_time.toSec > 1000000) :
    getPosition_ecef_m trig s id time = some v3zero ∧
    getClock_s s id time = some 0 := by
  have hgt : ¬ id > s.number_of_calculated := by omega
  constructor
  · unfold getPosition_ecef_m
    dsimp only
    rw [if_neg hgt, if_neg hts, if_pos hrange]
  · unfold getClock_s
    dsimp only
    rw [if_neg hgt, if_neg hts, if_pos hrange]

/-- Witness for the amended C6: tracked satellite 0, query time 50 s, which
lies 50 s before the reference time 100 s. -/
theorem gnss_out_of_window_sentinel_witness :
    getPosition_ecef_m trigZero demoState4 0 ⟨50, 0⟩ = some v3zero ∧
    getClock_s demoState4 0 ⟨50, 0⟩ = some 0 :=
  gnss_out_of_window_sentinel trigZero demoState4 0 ⟨50, 0⟩
    (by with_unfolding_all decide) (by decide) (by with_unfolding_all decide)

/-- C7: with a nonempty file list sorted by start time, `Initialize` selects
the first file source whose 24-hour window contains the start time (no earlier
file's window does), records it as the active file index, and seeds from it;
when no file source contains the start time it returns the logged mismatch
early, with the buffers untouched. -/
theorem gnss_initialize_file_selection (files : List Sp3FileReader)
    (start : EpochTime) (s₀ : GnssState)
    (hne : files ≠ [])
    (hsorted : files.Pairwise (fun a b => a.start_time.toSec ≤ b.start_time.toSec)) :
    (∀ i, findSp3Index files start.toSec = some i →
       (∃ f, files.get? i = some f ∧ coversTime f start ∧
          ∀ j, j < i → ∀ g, files.get? j = some g → ¬ coversTime g start) ∧
       initializeGnss files start s₀ =
         seedLoop 9 (files.getD i default)
           (postSelect files start
             { s₀ with sp3_files := files, current_epoch_time := start } i) ∧
       (postSelect files start
         { s₀ with sp3_files := files, current_epoch_time := start } i).sp3_file_id = i) ∧
    (findSp3Index files start.toSec = none →
       (∀ f ∈ files, ¬ coversTime f start) ∧
       initializeGnss files start s₀ =
         InitResult.mismatch
           { s₀ with sp3_files := files, current_epoch_time := start }) := by
  constructor
  · intro i hfind
    refine ⟨findSp3Index_some start files i hfind, ?_, rfl⟩
    obtain ⟨f0, rest, rfl⟩ : ∃ f0 rest, files = f0 :: rest := by
      cases files with
      | nil => exact absurd rfl hne
      | cons a l => exact ⟨a, l, rfl⟩
    unfold initializeGnss
    dsimp only [List.get?]
    rw [hfind]
  · intro hfind
    refine ⟨findSp3Index_none start files hsorted hfind, ?_⟩
    obtain ⟨f0, rest, rfl⟩ : ∃ f0 rest, files = f0 :: rest := by
      cases files with
      | nil => exact absurd rfl hne
      | cons a l => exact ⟨a, l, rfl⟩
    unfold initializeGnss
    dsimp only [List.get?]
    rw [hfind]

/-- Witness for C7: a single file starting at 100 s does not cover a start
time of 50 s, and `Initialize` returns the mismatch with no buffers seeded. -/
theorem gnss_initialize_file_selection_witness :
    (∀ f ∈ [demoFileA], ¬ coversTime f ⟨50, 0⟩) ∧
    initializeGnss [demoFileA] ⟨50, 0⟩ initialState =
      InitResult.mismatch
        { initialState with sp3_files := [demoFileA], current_epoch_time := ⟨50, 0⟩ } :=
  (gnss_initialize_file_selection [demoFileA] ⟨50, 0⟩ initialState
    (List.cons_ne_nil _ _) (by simp)).2 (by with_unfolding_all rfl)

/-- C9: in both getters a query time whose integer-second component is 0 is
treated as unset and replaced by the manager's current query time, even when
the fractional part is nonzero, so no caller can query at an absolute time
with integer-second part zero. -/
theorem gnss_zero_seconds_query_replaced (trig : TrigEval) (s : GnssState)
    (id : Nat) (q : ℚ) :
    getPosition_ecef_m trig s id ⟨0, q⟩ =
      getPosition_ecef_m trig s id s.current_epoch_time ∧
    getClock_s s id ⟨0, q⟩ = getClock_s s id s.current_epoch_time := by
  constructor <;> simp [getPosition_ecef_m, getClock_s, ite_self]

/-- C10: a single `Update` advances the epoch index by at most 1 and pushes at
most one sample into each orbit and clock buffer, however far the query time
has advanced; and with calculation enabled, when the refill trigger does not
fire the only state change is the stored query time. -/
theorem gnss_update_frame_effect (s : GnssState) (t : EpochTime) :
    (∀ s', update s t = UpdResult.ok s' →
       s'.reference_interpolation_id ≤ s.reference_interpolation_id + 1 ∧
       (∀ i, s'.orbit.get? i = s.orbit.get? i ∨
          ∃ b td v, s.orbit.get? i = some b ∧ s'.orbit.get? i = some (b.push td v)) ∧
       (∀ i, s'.clock.get? i = s.clock.get? i ∨
          ∃ b td v, s.clock.get? i = some b ∧ s'.clock.get? i = some (b.push td v))) ∧
    (∀ (file : Sp3FileReader) (b0 : Buffer Vec3) (m : ℚ),
       s.is_calc_enabled = true →
       s.sp3_files.get? s.sp3_file_id = some file →
       s.orbit.get? 0 = some b0 →
       b0.times.get? 4 = some m →
       ¬(t.toSec - s.reference_time.toSec > m) →
       update s t = UpdResult.ok { s with current_epoch_time := t }) := by
  constructor
  · intro s' h
    rcases update_ok_cases s t s' h with rfl | rfl | ⟨file, hf, htrig⟩
    · exact ⟨Nat.le_succ _, fun i => Or.inl rfl, fun i => Or.inl rfl⟩
    · exact ⟨Nat.le_succ _, fun i => Or.inl rfl, fun i => Or.inl rfl⟩
    · obtain ⟨href, hcur, hrid, ob, cb, hrm, ho, hc⟩ := updateTriggered_ok_spec _ _ _ htrig
      refine ⟨hrid, ?_, ?_⟩
      · intro i
        by_cases hi : i < 32
        · obtain ⟨b, bc, hob, hcb, hoi, hci⟩ :=
            refillMany_get?_lt _ _ _ 32 _ _ _ _ hrm i hi
          right
          refine ⟨b, (file.epochs.getD s.reference_interpolation_id ⟨0, 0⟩).toSec -
            s.reference_time.toSec, v3smul 1000 (file.position_km s.reference_interpolation_id i),
            hob, ?_⟩
          rw [ho]
          exact hoi
        · left
          have hge := (refillMany_get?_ge _ _ _ 32 _ _ _ _ hrm i (by omega)).1
          rw [ho]
          exact hge
      · intro i
        by_cases hi : i < 32
        · obtain ⟨b, bc, hob, hcb, hoi, hci⟩ :=
            refillMany_get?_lt _ _ _ 32 _ _ _ _ hrm i hi
          right
          refine ⟨bc, (file.epochs.getD s.reference_interpolation_id ⟨0, 0⟩).toSec -
            s.reference_time.toSec, file.clock_us s.reference_interpolation_id i,
            hcb, ?_⟩
          rw [hc]
          exact hci
        · left
          have hge := (refillMany_get?_ge _ _ _ 32 _ _ _ _ hrm i (by omega)).2
          rw [hc]
          exact hge
  · intro file b0 m hen hf hb hm hlt
    rw [update_cadence_eq s t file b0 m hen hf hb hm, if_neg hlt]

/-- Witness for C10: on the seeded single-file state, an `Update` at 104 s does
not trigger, only the stored query time changes, and the epoch index bound
holds. -/
theorem gnss_update_frame_effect_witness :
    update demoState4 ⟨104, 0⟩ =
      UpdResult.ok { demoState4 with current_epoch_time := ⟨104, 0⟩ } ∧
    ({ demoState4 with current_epoch_time := (⟨104, 0⟩ : EpochTime) } :
        GnssState).reference_interpolation_id ≤
      demoState4.reference_interpolation_id + 1 := by
  have h := gnss_update_frame_effect demoState4 ⟨104, 0⟩
  have h2 := h.2 demoFileA ⟨[0, 1, 2, 3, 4, 5, 6, 7, 8], List.replicate 9 v3zero⟩ 4
    (by with_unfolding_all rfl) (by with_unfolding_all rfl)
    (by with_unfolding_all rfl) (by with_unfolding_all rfl)
    (by with_unfolding_all decide)
  exact ⟨h2, (h.1 _ h2).1⟩
